import Mathlib

/-!
Verification of the inventory ledger and transfer engine of the Mir01
repository, together with two client-side components (the API token cache
and the authentication middleware) whose code is present in the repository.

The Transfer Orchestrator is shipped: `InventoryTransferController` (with
`store`, `updateStatus`, `cancel` and their `handle*` helpers) appears in
full in `src/inventory-api/Dockerfile` after the first document separator,
and is embedded here directly, including its `DB::transaction` semantics —
an `abort` inside the transaction rolls the whole unit of work back, so
every failing endpoint returns the input state. The Stock Adjustment
Service (the `Inventory` model's `addStock`/`reduceStock`) and the Cost
Accounting Engine are absent from the shipped tree — only their callers
and display code are — so those are modelled from the specification text,
as marked on each definition. Monetary amounts are represented in integer
cents, so an `averageCost` of `10667` cents denotes 106.67 currency units.
-/

namespace Mir01

/-- Modelled from the spec: one Stock Record per (variantId, locationId) pair,
holding current quantity and weighted-average cost state. The backend entity
is absent from the shipped sources. Amounts are in cents. -/
structure StockRecord where
  quantity : Nat
  averageCost : Int
  cumulativeReceivedQty : Nat
  cumulativeCostAmount : Int
deriving Repr, DecidableEq

/-- Modelled from the spec: the Ledger Entry type tag, supplied explicitly by
the caller at mutation time. -/
inductive EntryType where
  | receipt
  | sale
  | adjustmentAdd
  | adjustmentReduce
  | transferOut
  | transferIn
  | transferCancel
deriving Repr, DecidableEq

/-- Modelled from the spec: an append-only, immutable Ledger Entry recording a
single signed quantity change on one (variant, location) pair. -/
structure LedgerEntry where
  variantId : Nat
  locationId : Nat
  delta : Int
  resultingQuantity : Nat
  type : EntryType
  actorId : Nat
  relatedTransferId : Option Nat
deriving Repr, DecidableEq

/-- The transfer status constants of the shipped controller
(`STATUS_PENDING`, `STATUS_IN_TRANSIT`, `STATUS_COMPLETED`,
`STATUS_CANCELLED`), which are also the values its `updateStatus`
validation accepts. -/
inductive TStatus where
  | pending
  | in_transit
  | completed
  | cancelled
deriving Repr, DecidableEq

/-- The `InventoryTransfer` row as persisted by the shipped
`InventoryTransferController`: `from_store_id`, `to_store_id`,
`product_variant_id`, `quantity`, `status` and the creating `user_id`.
The `notes` text and timestamps are omitted — no claim observes them. -/
structure TransferRecord where
  id : Nat
  fromStoreId : Nat
  toStoreId : Nat
  productVariantId : Nat
  quantity : Nat
  status : TStatus
  userId : Nat
deriving Repr, DecidableEq

/-- Modelled from the spec: the persisted state of the core — Stock Records
keyed by (variantId, locationId) (created lazily, so the map is total with a
zeroed default), the append-only Ledger (most recent entry first), and the
Transfer Records keyed by id. -/
structure EngineState where
  stock : Nat → Nat → StockRecord
  ledger : List LedgerEntry
  transfers : Nat → Option TransferRecord

/-- Modelled from the spec: the zeroed Stock Record a lazily-created pair
starts from. -/
def emptyRecord : StockRecord :=
  { quantity := 0, averageCost := 0, cumulativeReceivedQty := 0, cumulativeCostAmount := 0 }

/-- Modelled from the spec: the initial engine state — no stock, empty
ledger, no transfers. -/
def initState : EngineState :=
  { stock := fun _ _ => emptyRecord, ledger := [], transfers := fun _ => none }

/-- Modelled from the spec: the error taxonomy of §7. -/
inductive EngineError where
  | ValidationError
  | InsufficientStock
  | InvalidStateTransition
  | NotFound
  | TransferFailed
deriving Repr, DecidableEq

/-- Result of one core operation: success with the new state, or a terminal
error together with the state after any automatic compensation ran (for
single-step failures that state is the unchanged input state). -/
inductive OpResult where
  | ok (st : EngineState)
  | err (e : EngineError) (st : EngineState)

/-- State carried by an operation result, whether it succeeded or failed. -/
def OpResult.state : OpResult → EngineState
  | .ok st => st
  | .err _ st => st

/-- Error carried by an operation result, if any. -/
def OpResult.errorOf : OpResult → Option EngineError
  | .ok _ => none
  | .err e _ => some e

/-- Modelled from the spec: the `Inventory` model (absent from the shipped
tree) lets `addStock` return `false`; the shipped controller guards every
`addStock` call against that. The environment says at which
(variant, store) pairs `addStock` reports failure. -/
structure Env where
  creditFails : Nat → Nat → Bool

/-- Point update of the total stock map. -/
def updateStock (f : Nat → Nat → StockRecord) (v l : Nat) (r : StockRecord) :
    Nat → Nat → StockRecord :=
  fun v' l' => if v' = v ∧ l' = l then r else f v' l'

/-- Round-half-up division of `n` by `d` (both in the same currency unit):
the numerator is doubled, half the denominator is added, then floor. -/
def roundHalfUp (n d : Nat) : Nat :=
  (2 * n + d) / (2 * d)

/-- Modelled from the spec: the effect of a credit on one Stock Record.
Quantity always grows by `qty`; only a `receipt`-typed credit (carrying its
landed cost amount in cents) also accumulates the cost totals and recomputes
`averageCost = cumulativeCostAmount / cumulativeReceivedQty` (round-half-up
to cents, 0 when no quantity has been received). -/
def creditRecord (r : StockRecord) (qty : Nat) (ty : EntryType) (costAmount : Option Int) :
    StockRecord :=
  match ty with
  | .receipt =>
      let newQty := r.cumulativeReceivedQty + qty
      let newAmt := r.cumulativeCostAmount + costAmount.getD 0
      { quantity := r.quantity + qty
        cumulativeReceivedQty := newQty
        cumulativeCostAmount := newAmt
        averageCost := if newQty = 0 then 0 else (2 * newAmt + newQty) / (2 * newQty) }
  | _ => { r with quantity := r.quantity + qty }

/-- Modelled from the spec: `credit` of the Stock Adjustment Service. Lazily
initializes the Stock Record, never fails for a positive quantity, appends
exactly one Ledger Entry in the same unit of work. -/
def credit (st : EngineState) (v l qty actor : Nat) (ty : EntryType)
    (costAmount : Option Int) (rel : Option Nat) : OpResult :=
  if qty = 0 then .err .ValidationError st
  else
    let r' := creditRecord (st.stock v l) qty ty costAmount
    .ok { st with
      stock := updateStock st.stock v l r'
      ledger := { variantId := v, locationId := l, delta := (qty : Int),
                  resultingQuantity := r'.quantity, type := ty, actorId := actor,
                  relatedTransferId := rel } :: st.ledger }

/-- Modelled from the spec: `debit` of the Stock Adjustment Service. Fails
with `InsufficientStock` when `qty` exceeds the current quantity, with no
mutation; otherwise decrements the quantity (cost fields untouched) and
appends one Ledger Entry with a negative delta. -/
def debit (st : EngineState) (v l qty actor : Nat) (ty : EntryType)
    (rel : Option Nat) : OpResult :=
  if qty = 0 then .err .ValidationError st
  else if (st.stock v l).quantity < qty then .err .InsufficientStock st
  else
    let r := st.stock v l
    let r' := { r with quantity := r.quantity - qty }
    .ok { st with
      stock := updateStock st.stock v l r'
      ledger := { variantId := v, locationId := l, delta := -(qty : Int),
                  resultingQuantity := r'.quantity, type := ty, actorId := actor,
                  relatedTransferId := rel } :: st.ledger }

/-- Modelled from the spec: `set` of the Stock Adjustment Service. Computes
the signed delta to the target quantity internally, records it as an
adjustment entry, and never touches `averageCost`. -/
def setStock (st : EngineState) (v l target actor : Nat) : OpResult :=
  let r := st.stock v l
  let d : Int := (target : Int) - (r.quantity : Int)
  .ok { st with
    stock := updateStock st.stock v l { r with quantity := target }
    ledger := { variantId := v, locationId := l, delta := d,
                resultingQuantity := target,
                type := if d < 0 then .adjustmentReduce else .adjustmentAdd,
                actorId := actor, relatedTransferId := none } :: st.ledger }

/-- Replace the status of transfer `t` in the transfer map — the
controller's `$transferModel->status = ...; $transferModel->save()`. -/
def setTransferStatus (st : EngineState) (t : TransferRecord) (s : TStatus) : EngineState :=
  { st with transfers := fun i => if i = t.id then some { t with status := s } else st.transfers i }

/-- Modelled from the spec: `Inventory::addStock` of the absent `Inventory`
model — a credit of the (variant, store) record, recorded with a plain
adjustment type (the controller retags it afterwards). Returns `none`
(the model's `false`) on an injected storage failure or a zero quantity. -/
def addStock (env : Env) (st : EngineState) (v l qty actor : Nat)
    (rel : Option Nat) : Option EngineState :=
  if env.creditFails v l then none
  else
    match credit st v l qty actor .adjustmentAdd none rel with
    | .ok st' => some st'
    | .err _ _ => none

/-- Modelled from the spec: `Inventory::reduceStock` of the absent
`Inventory` model — a debit of the (variant, store) record, recorded with a
plain adjustment type. Returns `none` (the model's `false`) when the debit
rejects the quantity. -/
def reduceStock (st : EngineState) (v l qty actor : Nat)
    (rel : Option Nat) : Option EngineState :=
  match debit st v l qty actor .adjustmentReduce rel with
  | .ok st' => some st'
  | .err _ _ => none

/-- Whether a Ledger Entry is tied to the (variant, store) pair. -/
def entryMatches (v l : Nat) (e : LedgerEntry) : Bool :=
  e.variantId == v && e.locationId == l

/-- The controller's retag pattern
(`$inventory->transactions()->latest()->first()->update(['type' => ...])`):
replace the type of the most recent ledger entry of one
(variant, store) pair, leaving its delta untouched. -/
def retagLatest (v l : Nat) (ty : EntryType) : List LedgerEntry → List LedgerEntry
  | [] => []
  | e :: es =>
      if entryMatches v l e then { e with type := ty } :: es
      else e :: retagLatest v l ty es

/-- Apply `retagLatest` to the state's ledger. -/
def retagState (st : EngineState) (v l : Nat) (ty : EntryType) : EngineState :=
  { st with ledger := retagLatest v l ty st.ledger }

/-- The `abort(...)` responses of the shipped controller: HTTP status plus
message. `abort422` carries the insufficient-stock and terminal-status
rejections, `abort400` the catch-block failures of multi-step transitions,
`abort404` is `findOrFail`, `abort500` the store-path stock failures. -/
inductive AbortError where
  | abort422 (msg : String)
  | abort400 (msg : String)
  | abort404
  | abort500 (msg : String)
deriving Repr, DecidableEq

/-- Result of one controller endpoint. Each endpoint body runs inside
`DB::transaction`, and an abort makes Laravel roll the whole unit of work
back — so an error result always carries the caller's input state. -/
inductive CtrlResult where
  | ok (st : EngineState)
  | err (e : AbortError) (st : EngineState)

/-- State carried by an endpoint result, whether it succeeded or failed. -/
def CtrlResult.state : CtrlResult → EngineState
  | .ok st => st
  | .err _ st => st

/-- Error carried by an endpoint result, if any. -/
def CtrlResult.errorOf : CtrlResult → Option AbortError
  | .ok _ => none
  | .err e _ => some e

/-- Embedded from `InventoryTransferController::handleInTransitTransfer`
(`src/inventory-api/Dockerfile`): check the source stock, `reduceStock` the
source, retag the latest source transaction to `transfer-out`; throws (the
`Except.error` message) on insufficient stock or a failed `reduceStock`. -/
def handleInTransitTransfer (st : EngineState) (t : TransferRecord)
    (actor : Nat) : Except String EngineState :=
  if (st.stock t.productVariantId t.fromStoreId).quantity < t.quantity then
    .error "來源門市庫存不足，無法開始轉移"
  else
    match reduceStock st t.productVariantId t.fromStoreId t.quantity actor (some t.id) with
    | none => .error "減少來源門市庫存失敗"
    | some st1 => .ok (retagState st1 t.productVariantId t.fromStoreId .transferOut)

/-- Embedded from `InventoryTransferController::handleCompletedTransfer`:
check the source stock, `reduceStock` the source, `addStock` the
destination — on an `addStock` failure the code issues a compensating
`addStock` back to the source and throws, and the enclosing transaction's
rollback then discards the whole attempt — finally retag the latest source
and destination transactions to `transfer-out` / `transfer-in`. -/
def handleCompletedTransfer (env : Env) (st : EngineState) (t : TransferRecord)
    (actor : Nat) : Except String EngineState :=
  if (st.stock t.productVariantId t.fromStoreId).quantity < t.quantity then
    .error "來源門市庫存不足，轉移狀態更新失敗"
  else
    match reduceStock st t.productVariantId t.fromStoreId t.quantity actor (some t.id) with
    | none => .error "減少來源門市庫存失敗"
    | some st1 =>
        match addStock env st1 t.productVariantId t.toStoreId t.quantity actor (some t.id) with
        | none => .error "增加目標門市庫存失敗"
        | some st2 =>
            .ok (retagState
                  (retagState st2 t.productVariantId t.fromStoreId .transferOut)
                  t.productVariantId t.toStoreId .transferIn)

/-- Embedded from
`InventoryTransferController::handleCompletedFromInTransit`: `addStock` the
destination (the source was debited when the transfer went in transit) and
retag the latest destination transaction to `transfer-in`. -/
def handleCompletedFromInTransit (env : Env) (st : EngineState)
    (t : TransferRecord) (actor : Nat) : Except String EngineState :=
  match addStock env st t.productVariantId t.toStoreId t.quantity actor (some t.id) with
  | none => .error "增加目標門市庫存失敗"
  | some st1 => .ok (retagState st1 t.productVariantId t.toStoreId .transferIn)

/-- Embedded from
`InventoryTransferController::restoreInventoryFromInTransit`: `addStock`
the source back and retag the latest source transaction to
`transfer-cancel`. -/
def restoreInventoryFromInTransit (env : Env) (st : EngineState)
    (t : TransferRecord) (actor : Nat) : Except String EngineState :=
  match addStock env st t.productVariantId t.fromStoreId t.quantity actor (some t.id) with
  | none => .error "恢復來源門市庫存失敗"
  | some st1 => .ok (retagState st1 t.productVariantId t.fromStoreId .transferCancel)

/-- Embedded from `InventoryTransferController::updateStatus`
(`src/inventory-api/Dockerfile`). Same requested status returns the record
unchanged; a terminal current status aborts 422; otherwise the new status
is saved and only the three handled transitions move stock
(`pending → in_transit`, `pending → completed`, `in_transit → completed`) —
every other transition (including `in_transit → cancelled`, which restores
nothing here, and `in_transit → pending`) just keeps the saved status. A
handler exception is caught and aborted with 400, which rolls the whole
transaction back to the input state. The notes update is omitted. -/
def updateStatus (env : Env) (st : EngineState) (tid : Nat) (newStatus : TStatus)
    (actor : Nat) : CtrlResult :=
  match st.transfers tid with
  | none => .err .abort404 st
  | some t =>
    if newStatus = t.status then .ok st
    else if t.status = .completed ∨ t.status = .cancelled then
      .err (.abort422 "已完成或已取消的轉移記錄不能更改狀態") st
    else
      if newStatus = .in_transit ∧ t.status = .pending then
        match handleInTransitTransfer (setTransferStatus st t newStatus)
            { t with status := newStatus } actor with
        | .ok st2 => .ok st2
        | .error msg => .err (.abort400 msg) st
      else if newStatus = .completed then
        if t.status = .pending then
          match handleCompletedTransfer env (setTransferStatus st t newStatus)
              { t with status := newStatus } actor with
          | .ok st2 => .ok st2
          | .error msg => .err (.abort400 msg) st
        else if t.status = .in_transit then
          match handleCompletedFromInTransit env (setTransferStatus st t newStatus)
              { t with status := newStatus } actor with
          | .ok st2 => .ok st2
          | .error msg => .err (.abort400 msg) st
        else .ok (setTransferStatus st t newStatus)
      else .ok (setTransferStatus st t newStatus)

/-- Embedded from `InventoryTransferController::cancel`
(`src/inventory-api/Dockerfile`). A `completed` or already-`cancelled`
transfer aborts 422 (cancelling twice is not an idempotent no-op here); an
`in_transit` transfer restores the source stock (abort 400 on failure,
rolling back); then the status is saved as `cancelled`. The reason is
written into the omitted notes text. -/
def cancel (env : Env) (st : EngineState) (tid actor : Nat) : CtrlResult :=
  match st.transfers tid with
  | none => .err .abort404 st
  | some t =>
    if t.status = .completed ∨ t.status = .cancelled then
      .err (.abort422 "已完成或已取消的轉移記錄不能再次取消") st
    else if t.status = .in_transit then
      match restoreInventoryFromInTransit env st t actor with
      | .ok st1 => .ok (setTransferStatus st1 t .cancelled)
      | .error msg => .err (.abort400 ("取消轉移失敗：" ++ msg)) st
    else .ok (setTransferStatus st t .cancelled)

/-- The `InventoryTransfer::create` step of the shipped `store`: persist
the new Transfer Record under its id. -/
def storeRecord (st : EngineState) (tid fromStore toStore variant qty actor : Nat)
    (status : TStatus) : EngineState :=
  { st with transfers := fun i =>
      if i = tid then
        some { id := tid, fromStoreId := fromStore, toStoreId := toStore,
               productVariantId := variant, quantity := qty, status := status,
               userId := actor }
      else st.transfers i }

/-- Embedded from `InventoryTransferController::store`
(`src/inventory-api/Dockerfile`): the transaction body, with the requested
status already defaulted. Insufficient source stock aborts 422 before
anything persists; then the record is created with the requested status,
and only a `completed` status moves stock (`reduceStock` the source,
`addStock` the destination — a failure aborts 500, rolling the creation
back too — then retag to `transfer-out`/`transfer-in`). The request-class
validation is not in the shipped tree and is omitted. -/
def storeWith (env : Env) (st : EngineState)
    (tid fromStore toStore variant qty actor : Nat) (status : TStatus) : CtrlResult :=
  if (st.stock variant fromStore).quantity < qty then
    .err (.abort422 "來源門市庫存不足，無法完成轉移") st
  else
    if status = .completed then
      match reduceStock (storeRecord st tid fromStore toStore variant qty actor status)
          variant fromStore qty actor (some tid) with
      | none => .err (.abort500 "減少來源門市庫存失敗") st
      | some st2 =>
          match addStock env st2 variant toStore qty actor (some tid) with
          | none => .err (.abort500 "增加目標門市庫存失敗") st
          | some st3 =>
              .ok (retagState (retagState st3 variant fromStore .transferOut)
                    variant toStore .transferIn)
    else .ok (storeRecord st tid fromStore toStore variant qty actor status)

/-- Embedded from `InventoryTransferController::store`: the requested
status defaults to `completed`, then the transaction body runs. -/
def store (env : Env) (st : EngineState) (tid fromStore toStore variant qty actor : Nat)
    (reqStatus : Option TStatus) : CtrlResult :=
  storeWith env st tid fromStore toStore variant qty actor (reqStatus.getD .completed)

/-- Modelled from the spec: one receiving line fed to the Cost Accounting
Engine — variant, quantity, and unit cost in cents. -/
structure ReceivingLine where
  variantId : Nat
  qty : Nat
  unitCost : Nat
deriving Repr, DecidableEq

/-- Modelled from the spec: freight amortization of §4.3. Every line but the
last gets `totalFreight * (line.qty / totalQty)` rounded half-up to cents;
the last line absorbs the residual so the total allocation is exact. -/
def allocateAux (totalFreight totalQty : Nat) (allocated : Int) :
    List ReceivingLine → List (ReceivingLine × Int)
  | [] => []
  | [line] => [(line, (totalFreight : Int) - allocated)]
  | line :: rest =>
      let share : Int := (roundHalfUp (totalFreight * line.qty) totalQty : Int)
      (line, share) :: allocateAux totalFreight totalQty (allocated + share) rest

/-- Modelled from the spec: allocate `totalFreight` (cents) over the
receiving lines in proportion to quantity. -/
def allocateFreight (totalFreight : Nat) (lines : List ReceivingLine) :
    List (ReceivingLine × Int) :=
  allocateAux totalFreight ((lines.map ReceivingLine.qty).sum) 0 lines

/-- Modelled from the spec: credit one received line into stock — a
`receipt`-typed credit carrying the line's landed cost
`unitCost * qty + allocatedFreight`. -/
def applyReceiveLine (loc actor : Nat) (st : EngineState) (p : ReceivingLine × Int) :
    EngineState :=
  (credit st p.1.variantId loc p.1.qty actor .receipt
    (some ((p.1.unitCost : Int) * (p.1.qty : Int) + p.2)) none).state

/-- Modelled from the spec: `receivePurchase` (§4.3, §6). Validates a
non-empty list of positive-quantity lines, allocates freight, then credits
each line into stock at the receiving location with its landed cost. -/
def receivePurchase (st : EngineState) (loc : Nat) (lines : List ReceivingLine)
    (totalFreight actor : Nat) : OpResult :=
  if lines.isEmpty then .err .ValidationError st
  else if lines.any (fun ln => ln.qty = 0) then .err .ValidationError st
  else .ok ((allocateFreight totalFreight lines).foldl (applyReceiveLine loc actor) st)

/-- Modelled from the spec: the `action` argument of `adjustStock` (§6). -/
inductive AdjustAction where
  | add
  | reduce
  | set
deriving Repr, DecidableEq

/-- Modelled from the spec: `adjustStock` (§6) — `add` credits, `reduce`
debits, `set` sets to the target quantity. -/
def adjustStock (st : EngineState) (v l : Nat) (action : AdjustAction)
    (qty actor : Nat) : OpResult :=
  match action with
  | .add => credit st v l qty actor .adjustmentAdd none none
  | .reduce => debit st v l qty actor .adjustmentReduce none
  | .set => setStock st v l qty actor

/-- One invocation of an exposed operation: a spec-modelled stock
adjustment or purchase receipt, or one of the three shipped transfer
endpoints. -/
inductive Op where
  | adjust (v l : Nat) (action : AdjustAction) (qty actor : Nat)
  | store (tid fromStore toStore variant qty actor : Nat) (reqStatus : Option TStatus)
  | updateStatus (tid : Nat) (newStatus : TStatus) (actor : Nat)
  | cancel (tid actor : Nat)
  | receive (loc : Nat) (lines : List ReceivingLine) (totalFreight actor : Nat)

/-- Apply one exposed operation, keeping the resulting state whether the
operation succeeded or failed (a failed operation rolls back to, and
returns, the input state). -/
def applyOp (env : Env) (st : EngineState) : Op → EngineState
  | .adjust v l action qty actor => (adjustStock st v l action qty actor).state
  | .store tid f g v qty actor s => (store env st tid f g v qty actor s).state
  | .updateStatus tid ns actor => (updateStatus env st tid ns actor).state
  | .cancel tid actor => (cancel env st tid actor).state
  | .receive loc lines tf actor => (receivePurchase st loc lines tf actor).state

/-- Run a sequence of exposed operations from the initial state. -/
def runOps (env : Env) (ops : List Op) : EngineState :=
  ops.foldl (applyOp env) initState

/-- Sum of the signed deltas of all Ledger Entries tied to a
(variant, location) pair. -/
def ledgerSum (v l : Nat) (es : List LedgerEntry) : Int :=
  ((es.filter (entryMatches v l)).map LedgerEntry.delta).sum

/-- The Ledger/Stock consistency invariant of §8: every Stock Record's
quantity equals the sum of the deltas of the Ledger Entries tied to its
(variant, location) pair. -/
def Inv (st : EngineState) : Prop :=
  ∀ v l, (((st.stock v l).quantity : Int)) = ledgerSum v l st.ledger

/-! ## Token cache (`apiClient`, shipped source)

Embedding of `getTokenSmart` / `clearTokenCache`: the module-level mutable
pair `cachedToken` / `tokenPromise` becomes an explicit state, and an
in-flight `getSession` promise is identified by a numeral. -/

/-- The module-level token cache state: `cachedToken` (a JS
`string | null`) and `tokenPromise` (the identifier of the in-flight fetch
promise, if any). -/
structure TokenCache where
  cachedToken : Option String
  tokenPromise : Option Nat
deriving Repr, DecidableEq

/-- What one call to `getTokenSmart` does: return the cached token with no
fetch, await the already in-flight fetch, or begin a new fetch. -/
inductive TokenCall where
  | hitCache (t : String)
  | joinInflight (id : Nat)
  | startFetch (id : Nat)
deriving Repr, DecidableEq

/-- JavaScript truthiness of a `string | null` value: `null` and the empty
string are falsy. -/
def truthy : Option String → Bool
  | none => false
  | some s => !(s == "")

/-- The synchronous body of `getTokenSmart`: return the cached token when it
is truthy, else the in-flight promise when one exists, else start a new
fetch (identified by `freshId`) and cache its promise. -/
def getTokenSmart (c : TokenCache) (freshId : Nat) : TokenCall × TokenCache :=
  match c.cachedToken with
  | some t =>
      if t == "" then
        match c.tokenPromise with
        | some id => (.joinInflight id, c)
        | none => (.startFetch freshId, { c with tokenPromise := some freshId })
      else (.hitCache t, c)
  | none =>
      match c.tokenPromise with
      | some id => (.joinInflight id, c)
      | none => (.startFetch freshId, { c with tokenPromise := some freshId })

/-- Resolution of an in-flight fetch. On success the code runs
`cachedToken = session?.user?.apiToken || null` (so an absent or empty
token caches `null`); on a thrown error `cachedToken` is left as it was;
the `finally` block always clears `tokenPromise`. -/
def resolveFetch (c : TokenCache) (outcome : Except Unit (Option String)) : TokenCache :=
  match outcome with
  | .ok apiToken =>
      { cachedToken := match apiToken with
          | some s => if s == "" then none else some s
          | none => none
        tokenPromise := none }
  | .error _ => { c with tokenPromise := none }

/-- Reset both the cached token and the in-flight promise
(`clearTokenCache`). -/
def clearTokenCache (_ : TokenCache) : TokenCache :=
  { cachedToken := none, tokenPromise := none }

/-! ## Authentication middleware (`src/middleware.ts`, shipped source) -/

/-- Outcome of the middleware on one request: pass through
(`NextResponse.next()`) or redirect to a path. -/
inductive MwResult where
  | next
  | redirect (target : String)
deriving Repr, DecidableEq

/-- String prefix test (`String.prototype.startsWith`), character-list
based so that it evaluates inside proofs. -/
def strStartsWith (p q : String) : Bool :=
  q.data.isPrefixOf p.data

/-- Character membership test (`String.prototype.includes` on a single
character), character-list based so that it evaluates inside proofs. -/
def strContainsChar (p : String) (c : Char) : Bool :=
  p.data.contains c

/-- The auth middleware of `src/middleware.ts`, as a function of the request
pathname and whether the request carries an authenticated session. -/
def middleware (pathname : String) (isLoggedIn : Bool) : MwResult :=
  if strStartsWith pathname "/_next" || strStartsWith pathname "/api"
      || strContainsChar pathname '.' || pathname == "/favicon.ico"
      || pathname == "/robots.txt" || pathname == "/manifest.json" then
    .next
  else
    let publicRoutes : List String := ["/login"]
    let isPublicRoute := publicRoutes.contains pathname
    if pathname == "/login" then
      if isLoggedIn then .redirect "/dashboard" else .next
    else if pathname == "/" then
      if isLoggedIn then .redirect "/dashboard" else .redirect "/login"
    else if !isLoggedIn && !isPublicRoute then
      .redirect "/login"
    else
      .next

/-! ## Auxiliary predicates and concrete demonstration inputs -/

/-- Two engine states agree on every Stock Record's `averageCost`. -/
def avgEq (st st2 : EngineState) : Prop :=
  ∀ v l, (st2.stock v l).averageCost = (st.stock v l).averageCost

/-- Environment in which every `addStock` succeeds. -/
def envAllOk : Env := ⟨fun _ _ => false⟩

/-- Environment in which every `addStock` reports failure at the storage
layer. -/
def envDestFails : Env := ⟨fun _ _ => true⟩

/-- A pending transfer of 5 units of variant 1 from store 1 to store 2. -/
def demoT : TransferRecord :=
  { id := 7, fromStoreId := 1, toStoreId := 2, productVariantId := 1,
    quantity := 5, status := .pending, userId := 9 }

/-- A completed transfer, for exercising the terminal-status rules. -/
def demoTC : TransferRecord :=
  { id := 8, fromStoreId := 1, toStoreId := 2, productVariantId := 1,
    quantity := 5, status := .completed, userId := 9 }

/-- A concrete state: 8 units of variant 1 at location 1, plus the two
demonstration transfers. -/
def demoState : EngineState :=
  { stock := fun v l =>
      if v = 1 ∧ l = 1 then
        { quantity := 8, averageCost := 0, cumulativeReceivedQty := 0,
          cumulativeCostAmount := 0 }
      else emptyRecord
    ledger := []
    transfers := fun i =>
      if i = 7 then some demoT else if i = 8 then some demoTC else none }

/-! ## Helper lemmas -/

lemma updateStock_same (f : Nat → Nat → StockRecord) (v l : Nat) (r : StockRecord) :
    updateStock f v l r v l = r := by
  simp [updateStock]

lemma updateStock_other (f : Nat → Nat → StockRecord) (v l v' l' : Nat) (r : StockRecord)
    (h : ¬(v' = v ∧ l' = l)) : updateStock f v l r v' l' = f v' l' := by
  simp [updateStock, h]

lemma creditRecord_quantity (r : StockRecord) (qty : Nat) (ty : EntryType)
    (m : Option Int) : (creditRecord r qty ty m).quantity = r.quantity + qty := by
  cases ty <;> rfl

lemma creditRecord_averageCost (r : StockRecord) (qty : Nat) (ty : EntryType)
    (m : Option Int) (h : ty ≠ .receipt) :
    (creditRecord r qty ty m).averageCost = r.averageCost := by
  cases ty <;> first | rfl | exact absurd rfl h

lemma ledgerSum_cons (v l : Nat) (e : LedgerEntry) (es : List LedgerEntry) :
    ledgerSum v l (e :: es)
      = (if entryMatches v l e then e.delta else 0) + ledgerSum v l es := by
  simp only [ledgerSum, List.filter_cons]
  cases h : entryMatches v l e <;> simp [h]

lemma entryMatches_mk_same (v l : Nat) (d : Int) (rq : Nat) (ty : EntryType)
    (a : Nat) (rel : Option Nat) :
    entryMatches v l { variantId := v, locationId := l, delta := d,
                       resultingQuantity := rq, type := ty, actorId := a,
                       relatedTransferId := rel } = true := by
  simp [entryMatches]

lemma entryMatches_mk_other (v l v' l' : Nat) (d : Int) (rq : Nat) (ty : EntryType)
    (a : Nat) (rel : Option Nat) (h : ¬(v' = v ∧ l' = l)) :
    entryMatches v' l' { variantId := v, locationId := l, delta := d,
                         resultingQuantity := rq, type := ty, actorId := a,
                         relatedTransferId := rel } = false := by
  simp only [entryMatches, Bool.and_eq_false_iff, beq_eq_false_iff_ne]
  by_cases hv : v = v'
  · subst hv
    right
    intro hl
    exact h ⟨rfl, hl.symm⟩
  · exact Or.inl hv

/-! ## Preservation of the Ledger/Stock invariant -/

lemma inv_init : Inv initState := by
  intro v l
  rfl

lemma inv_credit {st : EngineState} (v l qty actor : Nat) (ty : EntryType)
    (m : Option Int) (rel : Option Nat) (h : Inv st) :
    Inv (credit st v l qty actor ty m rel).state := by
  unfold credit
  by_cases hq : qty = 0
  · simpa [hq] using h
  · simp only [hq, if_false]
    intro v' l'
    simp only [OpResult.state, ledgerSum_cons]
    by_cases hm : v' = v ∧ l' = l
    · obtain ⟨hv, hl⟩ := hm
      subst hv; subst hl
      rw [updateStock_same, entryMatches_mk_same, creditRecord_quantity, if_pos rfl]
      have := h v' l'
      push_cast
      omega
    · rw [updateStock_other _ _ _ _ _ _ hm, entryMatches_mk_other _ _ _ _ _ _ _ _ _ hm]
      simpa using h v' l'

lemma inv_debit {st : EngineState} (v l qty actor : Nat) (ty : EntryType)
    (rel : Option Nat) (h : Inv st) :
    Inv (debit st v l qty actor ty rel).state := by
  unfold debit
  by_cases hq : qty = 0
  · simpa [hq] using h
  · by_cases hlt : (st.stock v l).quantity < qty
    · simpa [hq, hlt] using h
    · simp only [hq, if_false, hlt]
      intro v' l'
      simp only [OpResult.state, ledgerSum_cons]
      by_cases hm : v' = v ∧ l' = l
      · obtain ⟨hv, hl⟩ := hm
        subst hv; subst hl
        rw [updateStock_same, entryMatches_mk_same, if_pos rfl]
        have := h v' l'
        have hle : qty ≤ (st.stock v' l').quantity := Nat.le_of_not_lt hlt
        push_cast
        omega
      · rw [updateStock_other _ _ _ _ _ _ hm, entryMatches_mk_other _ _ _ _ _ _ _ _ _ hm]
        simpa using h v' l'

lemma inv_setStock {st : EngineState} (v l target actor : Nat) (h : Inv st) :
    Inv (setStock st v l target actor).state := by
  unfold setStock
  intro v' l'
  simp only [OpResult.state, ledgerSum_cons]
  by_cases hm : v' = v ∧ l' = l
  · obtain ⟨hv, hl⟩ := hm
    subst hv; subst hl
    rw [updateStock_same, entryMatches_mk_same, if_pos rfl]
    have := h v' l'
    push_cast
    omega
  · rw [updateStock_other _ _ _ _ _ _ hm, entryMatches_mk_other _ _ _ _ _ _ _ _ _ hm]
    simpa using h v' l'

lemma inv_setTransferStatus {st : EngineState} (t : TransferRecord) (s : TStatus)
    (h : Inv st) : Inv (setTransferStatus st t s) := h

lemma setTransferStatus_stock (st : EngineState) (t : TransferRecord) (s : TStatus) :
    (setTransferStatus st t s).stock = st.stock := rfl

lemma inv_of_ok {r : OpResult} {s : EngineState} (he : r = .ok s) (h : Inv r.state) :
    Inv s := by
  rw [he] at h
  exact h

lemma ledgerSum_retag (v l v' l' : Nat) (ty : EntryType) (es : List LedgerEntry) :
    ledgerSum v' l' (retagLatest v l ty es) = ledgerSum v' l' es := by
  induction es with
  | nil => rfl
  | cons e es ih =>
      unfold retagLatest
      cases h : entryMatches v l e
      · simp only [h, Bool.false_eq_true, if_false]
        rw [ledgerSum_cons, ledgerSum_cons, ih]
      · simp only [h, if_true]
        rw [ledgerSum_cons, ledgerSum_cons]
        rfl

lemma inv_retagState {st : EngineState} (v l : Nat) (ty : EntryType) (h : Inv st) :
    Inv (retagState st v l ty) := by
  intro v' l'
  exact (h v' l').trans (ledgerSum_retag v l v' l' ty st.ledger).symm

lemma inv_addStock {env : Env} {st st' : EngineState} (v l q a : Nat)
    (rel : Option Nat) (he : addStock env st v l q a rel = some st')
    (h : Inv st) : Inv st' := by
  unfold addStock at he
  split at he
  · exact absurd he (by simp)
  · split at he
    · rename_i s hC
      cases he
      exact inv_of_ok hC (inv_credit _ _ _ _ _ _ _ h)
    · exact absurd he (by simp)

lemma inv_reduceStock {st st' : EngineState} (v l q a : Nat) (rel : Option Nat)
    (he : reduceStock st v l q a rel = some st') (h : Inv st) : Inv st' := by
  unfold reduceStock at he
  split at he
  · rename_i s hD
    cases he
    exact inv_of_ok hD (inv_debit _ _ _ _ _ _ h)
  · exact absurd he (by simp)

lemma inv_handleInTransitTransfer {st st' : EngineState} {t : TransferRecord}
    {a : Nat} (he : handleInTransitTransfer st t a = .ok st') (h : Inv st) :
    Inv st' := by
  unfold handleInTransitTransfer at he
  split at he
  · exact absurd he (by simp)
  · split at he
    · exact absurd he (by simp)
    · rename_i s hR
      cases he
      exact inv_retagState _ _ _ (inv_reduceStock _ _ _ _ _ hR h)

lemma inv_handleCompletedTransfer {env : Env} {st st' : EngineState}
    {t : TransferRecord} {a : Nat} (he : handleCompletedTransfer env st t a = .ok st')
    (h : Inv st) : Inv st' := by
  unfold handleCompletedTransfer at he
  split at he
  · exact absurd he (by simp)
  · split at he
    · exact absurd he (by simp)
    · rename_i s hR
      split at he
      · exact absurd he (by simp)
      · rename_i s2 hA
        cases he
        exact inv_retagState _ _ _ (inv_retagState _ _ _
          (inv_addStock _ _ _ _ _ hA (inv_reduceStock _ _ _ _ _ hR h)))

lemma inv_handleCompletedFromInTransit {env : Env} {st st' : EngineState}
    {t : TransferRecord} {a : Nat}
    (he : handleCompletedFromInTransit env st t a = .ok st') (h : Inv st) :
    Inv st' := by
  unfold handleCompletedFromInTransit at he
  split at he
  · exact absurd he (by simp)
  · rename_i s hA
    cases he
    exact inv_retagState _ _ _ (inv_addStock _ _ _ _ _ hA h)

lemma inv_restoreInventoryFromInTransit {env : Env} {st st' : EngineState}
    {t : TransferRecord} {a : Nat}
    (he : restoreInventoryFromInTransit env st t a = .ok st') (h : Inv st) :
    Inv st' := by
  unfold restoreInventoryFromInTransit at he
  split at he
  · exact absurd he (by simp)
  · rename_i s hA
    cases he
    exact inv_retagState _ _ _ (inv_addStock _ _ _ _ _ hA h)

lemma inv_updateStatus {st : EngineState} (env : Env) (tid : Nat) (ns : TStatus)
    (a : Nat) (h : Inv st) : Inv (updateStatus env st tid ns a).state := by
  unfold updateStatus
  split
  · exact h
  · rename_i t hT
    split
    · exact h
    · split
      · exact h
      · split
        · split
          · rename_i st2 hH
            exact inv_handleInTransitTransfer hH h
          · exact h
        · split
          · split
            · split
              · rename_i st2 hH
                exact inv_handleCompletedTransfer hH h
              · exact h
            · split
              · split
                · rename_i st2 hH
                  exact inv_handleCompletedFromInTransit hH h
                · exact h
              · exact h
          · exact h

lemma inv_cancel {st : EngineState} (env : Env) (tid a : Nat) (h : Inv st) :
    Inv (cancel env st tid a).state := by
  unfold cancel
  split
  · exact h
  · rename_i t hT
    split
    · exact h
    · split
      · split
        · rename_i st1 hR
          exact inv_setTransferStatus _ _ (inv_restoreInventoryFromInTransit hR h)
        · exact h
      · exact inv_setTransferStatus _ _ h

lemma inv_store {st : EngineState} (env : Env)
    (tid f g v qty a : Nat) (s : Option TStatus) (h : Inv st) :
    Inv (store env st tid f g v qty a s).state := by
  unfold store storeWith
  split
  · exact h
  · split
    · split
      · exact h
      · rename_i st2 hR
        split
        · exact h
        · rename_i st3 hA
          exact inv_retagState _ _ _ (inv_retagState _ _ _
            (inv_addStock _ _ _ _ _ hA (inv_reduceStock _ _ _ _ _ hR h)))
    · exact h

lemma inv_foldl_receive (loc actor : Nat) (ps : List (ReceivingLine × Int)) :
    ∀ st : EngineState, Inv st → Inv (ps.foldl (applyReceiveLine loc actor) st) := by
  induction ps with
  | nil => intro st h; exact h
  | cons p ps ih =>
      intro st h
      refine ih _ ?_
      unfold applyReceiveLine
      exact inv_credit _ _ _ _ _ _ _ h

lemma inv_receivePurchase {st : EngineState} (loc : Nat) (lines : List ReceivingLine)
    (tf actor : Nat) (h : Inv st) :
    Inv (receivePurchase st loc lines tf actor).state := by
  unfold receivePurchase
  by_cases he : lines.isEmpty
  · simpa [he] using h
  · by_cases hz : lines.any (fun ln => ln.qty = 0)
    · simpa [he, hz] using h
    · simp only [he, hz, if_false, Bool.false_eq_true]
      exact inv_foldl_receive loc actor _ st h

lemma inv_applyOp (env : Env) (st : EngineState) (op : Op) (h : Inv st) :
    Inv (applyOp env st op) := by
  cases op with
  | adjust v l action qty actor =>
      cases action
      case add => exact inv_credit _ _ _ _ _ _ _ h
      case reduce => exact inv_debit _ _ _ _ _ _ h
      case set => exact inv_setStock _ _ _ _ h
  | store tid f g v qty actor s => exact inv_store env _ _ _ _ _ _ _ h
  | updateStatus tid ns actor => exact inv_updateStatus env _ _ _ h
  | cancel tid actor => exact inv_cancel env _ _ h
  | receive loc lines tf actor => exact inv_receivePurchase _ _ _ _ h

lemma inv_runOps (env : Env) (ops : List Op) : Inv (runOps env ops) := by
  unfold runOps
  have key : ∀ st : EngineState, Inv st → Inv (ops.foldl (applyOp env) st) := by
    induction ops with
    | nil => intro st h; exact h
    | cons op ops ih => intro st h; exact ih _ (inv_applyOp env st op h)
  exact key _ inv_init

/-! ## Preservation of `averageCost` by non-receipt mutations -/

lemma avg_credit {st : EngineState} (v l q a : Nat) (ty : EntryType) (m : Option Int)
    (rel : Option Nat) (hty : ty ≠ .receipt) :
    avgEq st (credit st v l q a ty m rel).state := by
  unfold credit
  by_cases hq : q = 0
  · simp only [hq, if_true]
    intro v' l'
    rfl
  · simp only [hq, if_false]
    intro v' l'
    simp only [OpResult.state]
    by_cases hm : v' = v ∧ l' = l
    · obtain ⟨hv, hl⟩ := hm
      subst hv; subst hl
      rw [updateStock_same, creditRecord_averageCost _ _ _ _ hty]
    · rw [updateStock_other _ _ _ _ _ _ hm]

lemma avg_debit {st : EngineState} (v l q a : Nat) (ty : EntryType)
    (rel : Option Nat) : avgEq st (debit st v l q a ty rel).state := by
  unfold debit
  by_cases hq : q = 0
  · simp only [hq, if_true]
    intro v' l'
    rfl
  · by_cases hlt : (st.stock v l).quantity < q
    · simp only [hq, if_false, hlt, if_true]
      intro v' l'
      rfl
    · simp only [hq, if_false, hlt]
      intro v' l'
      simp only [OpResult.state]
      by_cases hm : v' = v ∧ l' = l
      · obtain ⟨hv, hl⟩ := hm
        subst hv; subst hl
        rw [updateStock_same]
      · rw [updateStock_other _ _ _ _ _ _ hm]

lemma avg_setStock {st : EngineState} (v l target a : Nat) :
    avgEq st (setStock st v l target a).state := by
  unfold setStock
  intro v' l'
  simp only [OpResult.state]
  by_cases hm : v' = v ∧ l' = l
  · obtain ⟨hv, hl⟩ := hm
    subst hv; subst hl
    rw [updateStock_same]
  · rw [updateStock_other _ _ _ _ _ _ hm]

lemma avgEq_refl (st : EngineState) : avgEq st st := fun _ _ => rfl

lemma avgEq_trans {st1 st2 st3 : EngineState} (h12 : avgEq st1 st2)
    (h23 : avgEq st2 st3) : avgEq st1 st3 :=
  fun v l => (h23 v l).trans (h12 v l)

lemma avgEq_of_ok {st : EngineState} {r : OpResult} {s : EngineState}
    (he : r = .ok s) (h : avgEq st r.state) : avgEq st s := by
  rw [he] at h
  exact h

lemma avgEq_of_err {st : EngineState} {r : OpResult} {e : EngineError}
    {s : EngineState} (he : r = .err e s) (h : avgEq st r.state) : avgEq st s := by
  rw [he] at h
  exact h

lemma avg_setTransferStatus (st : EngineState) (t : TransferRecord) (s : TStatus) :
    avgEq st (setTransferStatus st t s) := fun _ _ => rfl

lemma avg_retagState (st : EngineState) (v l : Nat) (ty : EntryType) :
    avgEq st (retagState st v l ty) := fun _ _ => rfl

lemma avg_storeRecord (st : EngineState) (tid f g v qty a : Nat) (s : TStatus) :
    avgEq st (storeRecord st tid f g v qty a s) := fun _ _ => rfl

lemma avg_addStock {env : Env} {st st' : EngineState} (v l q a : Nat)
    (rel : Option Nat) (he : addStock env st v l q a rel = some st') :
    avgEq st st' := by
  unfold addStock at he
  split at he
  · exact absurd he (by simp)
  · split at he
    · rename_i s hC
      cases he
      exact avgEq_of_ok hC (avg_credit _ _ _ _ _ _ _ (by simp))
    · exact absurd he (by simp)

lemma avg_reduceStock {st st' : EngineState} (v l q a : Nat) (rel : Option Nat)
    (he : reduceStock st v l q a rel = some st') : avgEq st st' := by
  unfold reduceStock at he
  split at he
  · rename_i s hD
    cases he
    exact avgEq_of_ok hD (avg_debit _ _ _ _ _ _)
  · exact absurd he (by simp)

lemma avg_handleInTransitTransfer {st st' : EngineState} {t : TransferRecord}
    {a : Nat} (he : handleInTransitTransfer st t a = .ok st') : avgEq st st' := by
  unfold handleInTransitTransfer at he
  split at he
  · exact absurd he (by simp)
  · split at he
    · exact absurd he (by simp)
    · rename_i s hR
      cases he
      exact avgEq_trans (avg_reduceStock _ _ _ _ _ hR) (avg_retagState _ _ _ _)

lemma avg_handleCompletedTransfer {env : Env} {st st' : EngineState}
    {t : TransferRecord} {a : Nat}
    (he : handleCompletedTransfer env st t a = .ok st') : avgEq st st' := by
  unfold handleCompletedTransfer at he
  split at he
  · exact absurd he (by simp)
  · split at he
    · exact absurd he (by simp)
    · rename_i s hR
      split at he
      · exact absurd he (by simp)
      · rename_i s2 hA
        cases he
        exact avgEq_trans (avgEq_trans (avgEq_trans
          (avg_reduceStock _ _ _ _ _ hR) (avg_addStock _ _ _ _ _ hA))
          (avg_retagState _ _ _ _)) (avg_retagState _ _ _ _)

lemma avg_handleCompletedFromInTransit {env : Env} {st st' : EngineState}
    {t : TransferRecord} {a : Nat}
    (he : handleCompletedFromInTransit env st t a = .ok st') : avgEq st st' := by
  unfold handleCompletedFromInTransit at he
  split at he
  · exact absurd he (by simp)
  · rename_i s hA
    cases he
    exact avgEq_trans (avg_addStock _ _ _ _ _ hA) (avg_retagState _ _ _ _)

lemma avg_restoreInventoryFromInTransit {env : Env} {st st' : EngineState}
    {t : TransferRecord} {a : Nat}
    (he : restoreInventoryFromInTransit env st t a = .ok st') : avgEq st st' := by
  unfold restoreInventoryFromInTransit at he
  split at he
  · exact absurd he (by simp)
  · rename_i s hA
    cases he
    exact avgEq_trans (avg_addStock _ _ _ _ _ hA) (avg_retagState _ _ _ _)

lemma avg_updateStatus {st : EngineState} (env : Env) (tid : Nat) (ns : TStatus)
    (a : Nat) : avgEq st (updateStatus env st tid ns a).state := by
  unfold updateStatus
  split
  · exact avgEq_refl st
  · rename_i t hT
    split
    · exact avgEq_refl st
    · split
      · exact avgEq_refl st
      · split
        · split
          · rename_i st2 hH
            exact avgEq_trans (avg_setTransferStatus _ _ _)
              (avg_handleInTransitTransfer hH)
          · exact avgEq_refl st
        · split
          · split
            · split
              · rename_i st2 hH
                exact avgEq_trans (avg_setTransferStatus _ _ _)
                  (avg_handleCompletedTransfer hH)
              · exact avgEq_refl st
            · split
              · split
                · rename_i st2 hH
                  exact avgEq_trans (avg_setTransferStatus _ _ _)
                    (avg_handleCompletedFromInTransit hH)
                · exact avgEq_refl st
              · exact avgEq_refl st
          · exact avgEq_refl st

lemma avg_cancel {st : EngineState} (env : Env) (tid a : Nat) :
    avgEq st (cancel env st tid a).state := by
  unfold cancel
  split
  · exact avgEq_refl st
  · rename_i t hT
    split
    · exact avgEq_refl st
    · split
      · split
        · rename_i st1 hR
          exact avgEq_trans (avg_restoreInventoryFromInTransit hR)
            (avg_setTransferStatus _ _ _)
        · exact avgEq_refl st
      · exact avg_setTransferStatus _ _ _

lemma avg_store {st : EngineState} (env : Env)
    (tid f g v qty a : Nat) (s : Option TStatus) :
    avgEq st (store env st tid f g v qty a s).state := by
  unfold store storeWith
  split
  · exact avgEq_refl st
  · split
    · split
      · exact avgEq_refl st
      · rename_i st2 hR
        split
        · exact avgEq_refl st
        · rename_i st3 hA
          exact avgEq_trans (avgEq_trans (avgEq_trans (avgEq_trans
            (avg_storeRecord _ _ _ _ _ _ _ _) (avg_reduceStock _ _ _ _ _ hR))
            (avg_addStock _ _ _ _ _ hA))
            (avg_retagState _ _ _ _)) (avg_retagState _ _ _ _)
    · exact avgEq_refl st

lemma OpResult.state_ok (s : EngineState) : (OpResult.ok s).state = s := rfl

lemma OpResult.state_err (e : EngineError) (s : EngineState) :
    (OpResult.err e s).state = s := rfl

lemma credit_stock_same {st : EngineState} (v l q a : Nat) (ty : EntryType)
    (m : Option Int) (rel : Option Nat) (hq : q ≠ 0) :
    (credit st v l q a ty m rel).state.stock v l = creditRecord (st.stock v l) q ty m := by
  simp [credit, hq, OpResult.state, updateStock_same]

lemma debit_stock_same {st : EngineState} (v l q a : Nat) (ty : EntryType)
    (rel : Option Nat) (hq : q ≠ 0) (hnlt : ¬ (st.stock v l).quantity < q) :
    (debit st v l q a ty rel).state.stock v l
      = { st.stock v l with quantity := (st.stock v l).quantity - q } := by
  simp [debit, hq, hnlt, OpResult.state, updateStock_same]

lemma credit_transfers (st : EngineState) (v l q a : Nat) (ty : EntryType)
    (m : Option Int) (rel : Option Nat) :
    (credit st v l q a ty m rel).state.transfers = st.transfers := by
  unfold credit
  by_cases hq : q = 0 <;> simp [hq, OpResult.state]

lemma debit_transfers (st : EngineState) (v l q a : Nat) (ty : EntryType)
    (rel : Option Nat) :
    (debit st v l q a ty rel).state.transfers = st.transfers := by
  unfold debit
  by_cases hq : q = 0
  · simp [hq, OpResult.state]
  · by_cases hlt : (st.stock v l).quantity < q <;> simp [hq, hlt, OpResult.state]

/-! ## Freight allocation lemmas -/

lemma dropLast_cons_ne {α : Type} (a : α) (l : List α) (h : l ≠ []) :
    (a :: l).dropLast = a :: l.dropLast := by
  cases l with
  | nil => exact absurd rfl h
  | cons b r => exact List.dropLast_cons₂

lemma allocateAux_ne_nil (tf tq : Nat) (acc : Int) (a : ReceivingLine)
    (rest : List ReceivingLine) : allocateAux tf tq acc (a :: rest) ≠ [] := by
  cases rest <;> simp [allocateAux]

lemma allocateAux_sum (tf tq : Nat) (lines : List ReceivingLine) :
    ∀ acc : Int, lines ≠ [] →
      ((allocateAux tf tq acc lines).map Prod.snd).sum = (tf : Int) - acc := by
  induction lines with
  | nil => intro acc h; exact absurd rfl h
  | cons a rest ih =>
      intro acc _
      cases rest with
      | nil => simp [allocateAux]
      | cons b r =>
          simp only [allocateAux, List.map_cons, List.sum_cons]
          rw [ih _ (by simp)]
          ring

lemma allocateAux_fst (tf tq : Nat) (lines : List ReceivingLine) :
    ∀ acc : Int, (allocateAux tf tq acc lines).map Prod.fst = lines := by
  induction lines with
  | nil => intro acc; rfl
  | cons a rest ih =>
      intro acc
      cases rest with
      | nil => rfl
      | cons b r =>
          simp only [allocateAux, List.map_cons]
          rw [ih]

lemma allocateAux_dropLast (tf tq : Nat) (lines : List ReceivingLine) :
    ∀ acc : Int, ((allocateAux tf tq acc lines).map Prod.snd).dropLast
      = (lines.map fun ln => ((roundHalfUp (tf * ln.qty) tq : Nat) : Int)).dropLast := by
  induction lines with
  | nil => intro acc; rfl
  | cons a rest ih =>
      intro acc
      cases rest with
      | nil => rfl
      | cons b r =>
          simp only [allocateAux, List.map_cons]
          rw [dropLast_cons_ne _ _ (by
            simp only [ne_eq, List.map_eq_nil_iff]
            exact allocateAux_ne_nil tf tq _ b r)]
          rw [dropLast_cons_ne _ _ (by simp)]
          rw [ih]
          simp [List.map_cons]

/-! ## Claim theorems -/

/-- C2: for every Stock Record and after every sequence of exposed
operations, the record's quantity equals the sum of the delta fields of all
Ledger Entries tied to its (variant, location) pair; no operation leaves
the Ledger and the Stock Records mutually inconsistent. -/
theorem c2_stock_equals_ledger_sum (env : Env) (ops : List Op) (v l : Nat) :
    (((runOps env ops).stock v l).quantity : Int)
      = ledgerSum v l (runOps env ops).ledger :=
  inv_runOps env ops v l

/-- C3: for every non-empty list of receiving lines with positive total
quantity, freight allocation gives every non-last line the share
`totalFreight * line.qty / totalQty` rounded half-up to cents, preserves
the lines themselves, folds the rounding residual onto the last line, and
the allocated freight over all lines sums to `totalFreight` exactly. -/
theorem c3_freight_allocation (tf : Nat) (lines : List ReceivingLine)
    (hne : lines ≠ []) (hq : 0 < (lines.map ReceivingLine.qty).sum) :
    ((allocateFreight tf lines).map Prod.snd).sum = (tf : Int)
    ∧ (allocateFreight tf lines).map Prod.fst = lines
    ∧ ((allocateFreight tf lines).map Prod.snd).dropLast
        = (lines.map fun ln =>
            ((roundHalfUp (tf * ln.qty) ((lines.map ReceivingLine.qty).sum) : Nat)
              : Int)).dropLast := by
  refine ⟨?_, ?_, ?_⟩
  · have h := allocateAux_sum tf ((lines.map ReceivingLine.qty).sum) lines 0 hne
    simpa [allocateFreight] using h
  · exact allocateAux_fst tf ((lines.map ReceivingLine.qty).sum) lines 0
  · exact allocateAux_dropLast tf ((lines.map ReceivingLine.qty).sum) lines 0

/-- Witness for C3 at three one-unit lines and 100 cents of freight: the
shares are 33, 33 and 34 cents and sum to exactly 100. -/
theorem c3_freight_allocation_witness :
    ((allocateFreight 100 [⟨1, 1, 0⟩, ⟨2, 1, 0⟩, ⟨3, 1, 0⟩]).map Prod.snd).sum = (100 : Int)
    ∧ (allocateFreight 100 [⟨1, 1, 0⟩, ⟨2, 1, 0⟩, ⟨3, 1, 0⟩]).map Prod.fst
        = [⟨1, 1, 0⟩, ⟨2, 1, 0⟩, ⟨3, 1, 0⟩]
    ∧ ((allocateFreight 100 [⟨1, 1, 0⟩, ⟨2, 1, 0⟩, ⟨3, 1, 0⟩]).map Prod.snd).dropLast
        = (([⟨1, 1, 0⟩, ⟨2, 1, 0⟩, ⟨3, 1, 0⟩] : List ReceivingLine).map fun ln =>
            ((roundHalfUp (100 * ln.qty)
              ((([⟨1, 1, 0⟩, ⟨2, 1, 0⟩, ⟨3, 1, 0⟩] : List ReceivingLine).map
                ReceivingLine.qty).sum) : Nat) : Int)).dropLast :=
  c3_freight_allocation 100 [⟨1, 1, 0⟩, ⟨2, 1, 0⟩, ⟨3, 1, 0⟩] (by decide) (by decide)

/-- C5: receiving 10 units at unit cost 100.00 with 50.00 freight onto an
empty record yields quantity 10 and average cost 105.00; a second receipt
of 5 units at 110.00 with no freight yields average cost 106.67, with the
cumulative received quantity and cumulative cost amount accumulated per
line (cents representation: 10500 = 105.00, 10667 = 106.67). -/
theorem c5_weighted_average_scenarios :
    ((receivePurchase initState 1 [⟨7, 10, 10000⟩] 5000 99).state.stock 7 1).quantity = 10
    ∧ ((receivePurchase initState 1 [⟨7, 10, 10000⟩] 5000 99).state.stock 7 1).averageCost
        = 10500
    ∧ ((receivePurchase (receivePurchase initState 1 [⟨7, 10, 10000⟩] 5000 99).state
          1 [⟨7, 5, 11000⟩] 0 99).state.stock 7 1).averageCost = 10667
    ∧ ((receivePurchase (receivePurchase initState 1 [⟨7, 10, 10000⟩] 5000 99).state
          1 [⟨7, 5, 11000⟩] 0 99).state.stock 7 1).cumulativeReceivedQty = 15
    ∧ ((receivePurchase (receivePurchase initState 1 [⟨7, 10, 10000⟩] 5000 99).state
          1 [⟨7, 5, 11000⟩] 0 99).state.stock 7 1).cumulativeCostAmount = 160000 := by
  decide

/-- C6: requesting a transition to the transfer's current status is a
no-op: the shipped `updateStatus` returns at its same-status check, before
any stock handling, leaving the state — Transfer Record, Ledger and Stock
Records — completely unchanged. -/
theorem c6_same_status_noop (env : Env) (st : EngineState) (tid actor : Nat)
    (t : TransferRecord) (ht : st.transfers tid = some t) :
    updateStatus env st tid t.status actor = .ok st := by
  unfold updateStatus
  rw [ht]
  simp

/-- Witness for C6 on the concrete pending transfer of `demoState`. -/
theorem c6_same_status_noop_witness :
    updateStatus envAllOk demoState 7 demoT.status 9 = .ok demoState :=
  c6_same_status_noop envAllOk demoState 7 9 demoT (by decide)

/-- C7: a transfer in a terminal status (`completed` or `cancelled`)
rejects any transition to a different status, leaving the whole state
unchanged: the shipped `updateStatus` aborts 422 (the spec's
`InvalidStateTransition`), and `cancel` on a completed transfer aborts 422
likewise. -/
theorem c7_terminal_rejects (env : Env) (st : EngineState) (tid actor : Nat)
    (t : TransferRecord) (ns : TStatus) (ht : st.transfers tid = some t)
    (hterm : t.status = .completed ∨ t.status = .cancelled)
    (hne : ns ≠ t.status) :
    updateStatus env st tid ns actor
        = .err (.abort422 "已完成或已取消的轉移記錄不能更改狀態") st
    ∧ (t.status = .completed →
        cancel env st tid actor
          = .err (.abort422 "已完成或已取消的轉移記錄不能再次取消") st) := by
  constructor
  · unfold updateStatus
    rw [ht]
    rcases hterm with h | h <;> cases ns <;> simp_all
  · intro hc
    unfold cancel
    rw [ht]
    simp [hc]

/-- Witness for C7 on the concrete completed transfer of `demoState`. -/
theorem c7_terminal_rejects_witness :
    (updateStatus envAllOk demoState 8 .pending 9
        = .err (.abort422 "已完成或已取消的轉移記錄不能更改狀態") demoState)
    ∧ (demoTC.status = .completed →
        cancel envAllOk demoState 8 9
          = .err (.abort422 "已完成或已取消的轉移記錄不能再次取消") demoState) :=
  c7_terminal_rejects envAllOk demoState 8 9 demoTC .pending (by decide)
    (by decide) (by decide)

/-- C1: on the direct `pending → completed` path of the shipped
`updateStatus`, when the source debit succeeds but the destination
`addStock` fails, `handleCompletedTransfer` issues a compensating
`addStock` back to the source and throws; the caught exception aborts the
transaction with 400 — the code's `TransferFailed` — and the rollback
leaves the source quantity at its pre-debit value and the Transfer Record
unchanged (still pending). -/
theorem c1_compensating_credit (env : Env) (st : EngineState) (tid actor : Nat)
    (t : TransferRecord) (ht : st.transfers tid = some t)
    (hp : t.status = .pending) (hq : 0 < t.quantity)
    (hle : t.quantity ≤ (st.stock t.productVariantId t.fromStoreId).quantity)
    (hfail : env.creditFails t.productVariantId t.toStoreId = true) :
    (updateStatus env st tid .completed actor).errorOf
        = some (.abort400 "增加目標門市庫存失敗")
    ∧ ((updateStatus env st tid .completed actor).state.stock
          t.productVariantId t.fromStoreId).quantity
        = (st.stock t.productVariantId t.fromStoreId).quantity
    ∧ (updateStatus env st tid .completed actor).state.transfers tid
        = some t := by
  obtain ⟨tid2, src, dst, v, q, status, act⟩ := t
  dsimp only at hp hle hfail ht ⊢
  subst hp
  have hq0 : q ≠ 0 := Nat.pos_iff_ne_zero.mp hq
  have hnlt : ¬ (st.stock v src).quantity < q := Nat.not_lt.mpr hle
  have hA : ∀ s2 : EngineState, addStock env s2 v dst q actor (some tid2) = none := by
    intro s2
    simp [addStock, hfail]
  have hH : handleCompletedTransfer env
      (setTransferStatus st ⟨tid2, src, dst, v, q, .pending, act⟩ .completed)
      ⟨tid2, src, dst, v, q, .completed, act⟩ actor
      = .error "增加目標門市庫存失敗" := by
    unfold handleCompletedTransfer
    rw [if_neg (show ¬ ((setTransferStatus st ⟨tid2, src, dst, v, q, .pending, act⟩
      .completed).stock v src).quantity < q from hnlt)]
    have hR : reduceStock (setTransferStatus st ⟨tid2, src, dst, v, q, .pending, act⟩
        .completed) v src q actor (some tid2)
        = some ((debit (setTransferStatus st ⟨tid2, src, dst, v, q, .pending, act⟩
            .completed) v src q actor .adjustmentReduce (some tid2)).state) := by
      simp [reduceStock, debit, hq0, setTransferStatus_stock, hnlt, OpResult.state]
    rw [hR]
    dsimp only
    rw [hA]
  have hres : updateStatus env st tid .completed actor
      = .err (.abort400 "增加目標門市庫存失敗") st := by
    unfold updateStatus
    rw [ht]
    dsimp only
    rw [if_neg (by decide : ¬ (TStatus.completed = TStatus.pending))]
    rw [if_neg (by decide :
      ¬ (TStatus.pending = TStatus.completed ∨ TStatus.pending = TStatus.cancelled))]
    rw [if_neg (by decide :
      ¬ (TStatus.completed = TStatus.in_transit ∧ TStatus.pending = TStatus.pending))]
    rw [if_pos (by decide : TStatus.completed = TStatus.completed)]
    rw [if_pos (by decide : TStatus.pending = TStatus.pending)]
    rw [hH]
  rw [hres]
  exact ⟨rfl, rfl, ht⟩

/-- Witness for C1: in `demoState` with every `addStock` failing, the
direct completion of the pending transfer 7 aborts 400, the source stays
at 8 units, and the transfer stays pending. -/
theorem c1_compensating_credit_witness :
    (updateStatus envDestFails demoState 7 .completed 9).errorOf
        = some (.abort400 "增加目標門市庫存失敗")
    ∧ ((updateStatus envDestFails demoState 7 .completed 9).state.stock
          demoT.productVariantId demoT.fromStoreId).quantity
        = (demoState.stock demoT.productVariantId demoT.fromStoreId).quantity
    ∧ (updateStatus envDestFails demoState 7 .completed 9).state.transfers 7
        = some demoT :=
  c1_compensating_credit envDestFails demoState 7 9 demoT (by decide) (by decide)
    (by decide) (by decide) (by decide)

/-- C4: the spec-modelled `debit` fails with `InsufficientStock` exactly
when the requested quantity exceeds the current quantity of the
(variant, store) Stock Record, returning the state unmutated; likewise the
shipped `store` with a quantity exceeding the source store's stock aborts
422 (the code's `InsufficientStock`) before anything persists, leaving
Stock Records, Ledger and Transfer Records unchanged. -/
theorem c4_insufficient_stock (env : Env) (st : EngineState)
    (v l fromStore toStore tid qty actor : Nat) (ty : EntryType)
    (rel : Option Nat) (reqStatus : Option TStatus) (hq : 0 < qty) :
    ((st.stock v l).quantity < qty ↔
      debit st v l qty actor ty rel = .err .InsufficientStock st)
    ∧ ((st.stock v fromStore).quantity < qty →
      store env st tid fromStore toStore v qty actor reqStatus
        = .err (.abort422 "來源門市庫存不足，無法完成轉移") st) := by
  have hq0 : qty ≠ 0 := Nat.pos_iff_ne_zero.mp hq
  constructor
  · constructor
    · intro hlt
      simp [debit, hq0, hlt]
    · intro he
      by_contra hlt
      simp [debit, hq0, hlt] at he
  · intro hlt
    simp [store, storeWith, hlt]

/-- Witness for C4: debiting 9 units from the 8 available in `demoState`
fails, and so does creating a transfer of 9 units out of store 1. -/
theorem c4_insufficient_stock_witness :
    ((demoState.stock 1 1).quantity < 9 ↔
      debit demoState 1 1 9 9 .sale none = .err .InsufficientStock demoState)
    ∧ ((demoState.stock 1 1).quantity < 9 →
      store envAllOk demoState 77 1 2 1 9 9 (some .pending)
        = .err (.abort422 "來源門市庫存不足，無法完成轉移") demoState) :=
  c4_insufficient_stock envAllOk demoState 1 1 1 2 77 9 9 .sale none
    (some .pending) (by decide)

/-- C8: a debit of `q` followed by a credit of `q` with a non-receipt type
restores the quantity and leaves `averageCost` unchanged; more generally
`averageCost` is untouched by debits, by non-receipt credits, by set-style
manual adjustments, and by every shipped transfer endpoint
(`updateStatus`, `cancel`, `store`). -/
theorem c8_roundtrip_average_cost (st stA : EngineState) (env : Env)
    (v l q actor target tid a v' l' fromStore toStore : Nat)
    (tyD tyC : EntryType) (relD relC : Option Nat) (m : Option Int)
    (ns : TStatus) (reqStatus : Option TStatus)
    (hq : 0 < q) (hle : q ≤ (st.stock v l).quantity) (htyC : tyC ≠ .receipt) :
    (((credit (debit st v l q actor tyD relD).state v l q actor tyC m relC).state.stock
          v l).quantity
        = (st.stock v l).quantity)
    ∧ (((credit (debit st v l q actor tyD relD).state v l q actor tyC m relC).state.stock
          v l).averageCost
        = (st.stock v l).averageCost)
    ∧ (((debit stA v l q actor tyD relD).state.stock v' l').averageCost
        = (stA.stock v' l').averageCost)
    ∧ (((credit stA v l q actor tyC m relC).state.stock v' l').averageCost
        = (stA.stock v' l').averageCost)
    ∧ (((setStock stA v l target actor).state.stock v' l').averageCost
        = (stA.stock v' l').averageCost)
    ∧ (((updateStatus env stA tid ns a).state.stock v' l').averageCost
        = (stA.stock v' l').averageCost)
    ∧ (((cancel env stA tid a).state.stock v' l').averageCost
        = (stA.stock v' l').averageCost)
    ∧ (((store env stA tid fromStore toStore v q a reqStatus).state.stock
          v' l').averageCost
        = (stA.stock v' l').averageCost) := by
  have hq0 : q ≠ 0 := Nat.pos_iff_ne_zero.mp hq
  have hnlt : ¬ (st.stock v l).quantity < q := Nat.not_lt.mpr hle
  refine ⟨?_, ?_, avg_debit v l q actor tyD relD v' l',
    avg_credit v l q actor tyC m relC htyC v' l',
    avg_setStock v l target actor v' l',
    avg_updateStatus env tid ns a v' l',
    avg_cancel env tid a v' l',
    avg_store env tid fromStore toStore v q a reqStatus v' l'⟩
  · rw [credit_stock_same _ _ _ _ _ _ _ hq0, creditRecord_quantity,
      debit_stock_same _ _ _ _ _ _ hq0 hnlt]
    exact Nat.sub_add_cancel hle
  · exact avgEq_trans (avg_debit v l q actor tyD relD)
      (avg_credit v l q actor tyC m relC htyC) v l

/-- Witness for C8 on `demoState`: debit 3 then credit 3 of variant 1 at
store 1 with a `sale`/`adjustment-add` pair, plus the three transfer
endpoints. -/
theorem c8_roundtrip_average_cost_witness :
    (((credit (debit demoState 1 1 3 9 .sale none).state 1 1 3 9
          .adjustmentAdd none none).state.stock 1 1).quantity
        = (demoState.stock 1 1).quantity)
    ∧ (((credit (debit demoState 1 1 3 9 .sale none).state 1 1 3 9
          .adjustmentAdd none none).state.stock 1 1).averageCost
        = (demoState.stock 1 1).averageCost)
    ∧ (((debit demoState 1 1 3 9 .sale none).state.stock 1 2).averageCost
        = (demoState.stock 1 2).averageCost)
    ∧ (((credit demoState 1 1 3 9 .adjustmentAdd none none).state.stock 1 2).averageCost
        = (demoState.stock 1 2).averageCost)
    ∧ (((setStock demoState 1 1 4 9).state.stock 1 2).averageCost
        = (demoState.stock 1 2).averageCost)
    ∧ (((updateStatus envAllOk demoState 7 .in_transit 9).state.stock 1 2).averageCost
        = (demoState.stock 1 2).averageCost)
    ∧ (((cancel envAllOk demoState 7 9).state.stock 1 2).averageCost
        = (demoState.stock 1 2).averageCost)
    ∧ (((store envAllOk demoState 77 1 2 1 3 9 (some .pending)).state.stock
          1 2).averageCost
        = (demoState.stock 1 2).averageCost) :=
  c8_roundtrip_average_cost demoState demoState envAllOk 1 1 3 9 4 7 9 1 2 1 2
    .sale .adjustmentAdd none none none .in_transit (some .pending) (by decide)
    (by decide) (by decide)


/-- C9: once a fetch resolves with a non-null token, every subsequent call
to `getTokenSmart` returns that token from the cache without starting a new
`getSession` fetch; `clearTokenCache` resets both caches so the next call
begins a fresh fetch; and a call made while a fetch is in flight awaits
that same fetch. -/
theorem c9_token_cache (c c' : TokenCache) (t : String) (fid fid2 fid3 idp : Nat)
    (ht : t ≠ "") (hcf : truthy c'.cachedToken = false)
    (hcp : c'.tokenPromise = some idp) :
    getTokenSmart (resolveFetch c (.ok (some t))) fid
        = (.hitCache t, resolveFetch c (.ok (some t)))
    ∧ getTokenSmart (clearTokenCache c) fid2
        = (.startFetch fid2, { cachedToken := none, tokenPromise := some fid2 })
    ∧ getTokenSmart c' fid3 = (.joinInflight idp, c') := by
  have hbe : (t == "") = false := beq_eq_false_iff_ne.mpr ht
  refine ⟨?_, rfl, ?_⟩
  · simp [resolveFetch, getTokenSmart, hbe]
  · unfold getTokenSmart
    cases hc : c'.cachedToken with
    | none => rw [hcp]
    | some s =>
        have hs : (s == "") = true := by
          rw [hc] at hcf
          simpa [truthy] using hcf
        dsimp only
        rw [hs, if_pos rfl, hcp]

/-- Witness for C9 with token `"tok"`, an empty starting cache, and an
in-flight fetch with promise id 3. -/
theorem c9_token_cache_witness :
    getTokenSmart (resolveFetch ⟨none, none⟩ (.ok (some "tok"))) 0
        = (.hitCache "tok", resolveFetch ⟨none, none⟩ (.ok (some "tok")))
    ∧ getTokenSmart (clearTokenCache ⟨none, none⟩) 1
        = (.startFetch 1, { cachedToken := none, tokenPromise := some 1 })
    ∧ getTokenSmart ⟨none, some 3⟩ 2 = (.joinInflight 3, ⟨none, some 3⟩) :=
  c9_token_cache ⟨none, none⟩ ⟨none, some 3⟩ "tok" 0 1 2 3 (by decide) (by decide)
    (by decide)

/-- C10: an unauthenticated request for any path that does not start with
`/_next` or `/api`, contains no dot, and is not `/login` is redirected to
`/login` and never passed through to the protected page. -/
theorem c10_unauthenticated_redirect (p : String)
    (h1 : strStartsWith p "/_next" = false) (h2 : strStartsWith p "/api" = false)
    (h3 : strContainsChar p '.' = false) (h4 : p ≠ "/login") :
    middleware p false = .redirect "/login" := by
  have hf : (p == "/favicon.ico") = false := by
    cases hpe : p == "/favicon.ico"
    · rfl
    · exact absurd h3 (by rw [(beq_iff_eq.mp hpe : p = "/favicon.ico")]; decide)
  have hr : (p == "/robots.txt") = false := by
    cases hpe : p == "/robots.txt"
    · rfl
    · exact absurd h3 (by rw [(beq_iff_eq.mp hpe : p = "/robots.txt")]; decide)
  have hm : (p == "/manifest.json") = false := by
    cases hpe : p == "/manifest.json"
    · rfl
    · exact absurd h3 (by rw [(beq_iff_eq.mp hpe : p = "/manifest.json")]; decide)
  have hl : (p == "/login") = false := beq_eq_false_iff_ne.mpr h4
  cases hroot : p == "/"
  · simp [middleware, h1, h2, h3, hf, hr, hm, hl, hroot, List.contains, List.elem]
  · have hp : p = "/" := beq_iff_eq.mp hroot
    subst hp
    decide

/-- Witness for C10: an unauthenticated request for `/dashboard` is
redirected to `/login`. -/
theorem c10_unauthenticated_redirect_witness :
    middleware "/dashboard" false = .redirect "/login" :=
  c10_unauthenticated_redirect "/dashboard" (by decide) (by decide) (by decide)
    (by decide)

end Mir01
